import Mathlib

/-!
Verification of the VDA status report module (`src/main.py`).

The development shallowly embeds the Python module: JSON values become an
inductive `Json`; Python dictionaries appearing as parsed JSON objects become
association lists (key insertion order = list order, as in CPython 3.7+);
fallible Python evaluation (KeyError, TypeError, AttributeError,
`raise_for_status`) becomes `Except PyErr`.  Network transport is external: the
HTTP functions are embedded as functions of the `HttpResponse` they receive,
and the orchestrator (`vda_status_task`) as a function of the per-tenant
outcome of the token-plus-fetch attempt.

The source file defines `vda_status_task` twice; Python binds the second
definition (lines 212-234), so that one is embedded as `vda_status_task`,
while the first, shadowed definition (lines 158-194) is embedded as
`vda_status_task_shadowed` where its differing behaviour matters
(the empty-data early return and the recipient clean-up).
-/

namespace VdaStatus

/-- Parsed JSON values as produced by `response.json()`.  Numbers are modelled
as integers (no claim concerns fractional values); objects are association
lists in key-insertion order, keys unique. -/
inductive Json where
  | null
  | bool (b : Bool)
  | num (n : Int)
  | str (s : String)
  | arr (xs : List Json)
  | obj (fields : List (String × Json))

/-- Python exception classes that the embedded code can raise. -/
inductive PyErr where
  | keyError
  | typeError
  | attributeError
  | httpError
  deriving DecidableEq, Repr

mutual

/-- Structural equality on JSON values, modelling Python `==` on the values
that occur as grouping keys. -/
def jsonEqb : Json → Json → Bool
  | .null, .null => true
  | .bool a, .bool b => a == b
  | .num a, .num b => a == b
  | .str a, .str b => a == b
  | .arr xs, .arr ys => jsonSeqEqb xs ys
  | .obj fs, .obj gs => jsonFieldsEqb fs gs
  | _, _ => false

/-- Elementwise `jsonEqb` on JSON arrays. -/
def jsonSeqEqb : List Json → List Json → Bool
  | [], [] => true
  | x :: xs, y :: ys => jsonEqb x y && jsonSeqEqb xs ys
  | _, _ => false

/-- Fieldwise `jsonEqb` on JSON objects. -/
def jsonFieldsEqb : List (String × Json) → List (String × Json) → Bool
  | [], [] => true
  | (k, v) :: fs, (l, w) :: gs => k == l && jsonEqb v w && jsonFieldsEqb fs gs
  | _, _ => false

end

/-- `d.get(k)` on a Python dict `d`: the value bound to `k`, if present. -/
def pyGet : List (String × Json) → String → Option Json
  | [], _ => none
  | (k2, v) :: fs, k => if k2 = k then some v else pyGet fs k

mutual

/-- Python `repr` of a JSON value (single quotes around strings, `None`,
`True`/`False`), as used by `str` on containers. -/
def pyRepr : Json → String
  | .null => "None"
  | .bool b => if b then "True" else "False"
  | .num n => toString n
  | .str s => String.singleton (Char.ofNat 39) ++ s ++ String.singleton (Char.ofNat 39)
  | .arr xs => "[" ++ pyReprSeq xs ++ "]"
  | .obj fs => "\x7b" ++ pyReprFields fs ++ "\x7d"

/-- Comma-separated `pyRepr` of array elements. -/
def pyReprSeq : List Json → String
  | [] => ""
  | [x] => pyRepr x
  | x :: y :: xs => pyRepr x ++ ", " ++ pyReprSeq (y :: xs)

/-- Comma-separated `pyRepr` of object fields. -/
def pyReprFields : List (String × Json) → String
  | [] => ""
  | [(k, v)] => pyRepr (.str k) ++ ": " ++ pyRepr v
  | (k, v) :: p :: fs => pyRepr (.str k) ++ ": " ++ pyRepr v ++ ", " ++ pyReprFields (p :: fs)

end

/-- Python `str` of a JSON value, as interpolated into an f-string: a string
value is inserted verbatim, anything else via its `repr`-like rendering
(`None`, `True`, decimal integers, bracketed containers). -/
def pyStr : Json → String
  | .str s => s
  | v => pyRepr v

/-- Python truthiness of a JSON value (`if value:`). -/
def pyTruthy : Json → Bool
  | .null => false
  | .bool b => b
  | .num n => n != 0
  | .str s => s != ""
  | .arr xs => !xs.isEmpty
  | .obj fs => !fs.isEmpty

/-- `d[k]` subscripting on a JSON value: `KeyError` when the key is absent
from an object, `TypeError` when the value is not an object. -/
def pySubscript (v : Json) (k : String) : Except PyErr Json :=
  match v with
  | .obj fs =>
    match pyGet fs k with
    | some x => .ok x
    | none => .error .keyError
  | _ => .error .typeError

/-- `for x in v`: the sequence of values Python iterates over — array
elements, characters of a string, keys of a dict; `TypeError` otherwise. -/
def pyIter (v : Json) : Except PyErr (List Json) :=
  match v with
  | .arr xs => .ok xs
  | .str s => .ok (s.data.map (fun c => .str (String.singleton c)))
  | .obj fs => .ok (fs.map (fun p => .str p.1))
  | _ => .error .typeError

/-- Python's whitespace set for `str.strip()`. -/
def pyIsSpace (c : Char) : Bool :=
  c = ' ' || c = '\t' || c = '\n' || c = '\x0d' || c = '\x0b' || c = '\x0c'

/-- `s.strip()`: remove leading and trailing whitespace. -/
def pyStrip (s : String) : String :=
  String.mk (((s.data.dropWhile pyIsSpace).reverse.dropWhile pyIsSpace).reverse)

/-- Tail of `s.split(sep)`: `cur` holds the (reversed) pending chunk. -/
def pySplitGo (sep : Char) : List Char → List Char → List String
  | cur, [] => [String.mk cur.reverse]
  | cur, c :: cs =>
    if c = sep then String.mk cur.reverse :: pySplitGo sep [] cs
    else pySplitGo sep (c :: cur) cs

/-- `s.split(sep)` for a one-character separator: every occurrence splits,
empty chunks are kept. -/
def pySplit (sep : Char) (s : String) : List String :=
  pySplitGo sep [] s.data

/-- One tenant's configuration record, as built by `get_customer_details`
(src/main.py lines 18-32); every field comes from `os.getenv` and may be
absent. -/
structure CustomerDetails where
  client_id : Option String
  client_secret : Option String
  customer_name : Option String
  site_id : Option String

/-- The module-level `customers` mapping: customer id to details, in
configured order. -/
abbrev Customers := List (String × CustomerDetails)

/-- An HTTP response as the code sees it: status code plus the parsed JSON
body that `response.json()` yields.  Transport is external. -/
structure HttpResponse where
  status : Nat
  body : Json

/-- `response.raise_for_status()`: raises `requests.HTTPError` exactly for
status codes 400 and above. -/
def raiseForStatus (r : HttpResponse) : Except PyErr Unit :=
  if 400 ≤ r.status then .error .httpError else .ok ()

/-- `get_bearer_token` (src/main.py lines 197-210) as a function of the token
endpoint's response: `raise_for_status()`, then
`response.json().get('access_token')` — when the field is absent the result
is Python `None`, not an exception. -/
def get_bearer_token (resp : HttpResponse) : Except PyErr (Option Json) :=
  match raiseForStatus resp with
  | .error e => .error e
  | .ok _ =>
    match resp.body with
    | .obj fs => .ok (pyGet fs "access_token")
    | _ => .error .attributeError

/-- `get_vda_status` (src/main.py lines 34-45) as a function of the machines
endpoint's response: `raise_for_status()`, then the entire parsed body
(`return response.json()`, line 45). -/
def get_vda_status (resp : HttpResponse) : Except PyErr Json :=
  match raiseForStatus resp with
  | .error e => .error e
  | .ok _ => .ok resp.body

/-- Line 55: `item.get('MachineCatalog', {}).get('Name', 'Unknown')`.
`AttributeError` when the item, or a present `MachineCatalog` value, is not a
dict (`.get` on a non-dict object). -/
def catalogKey (item : Json) : Except PyErr Json :=
  match item with
  | .obj fs =>
    match (pyGet fs "MachineCatalog").getD (.obj []) with
    | .obj mcfs => .ok ((pyGet mcfs "Name").getD (.str "Unknown"))
    | _ => .error .attributeError
  | _ => .error .attributeError

/-- The sequence of line-55 catalog keys of a record list, in list order. -/
def catalogKeys : List Json → Except PyErr (List Json)
  | [] => .ok []
  | item :: items =>
    match catalogKey item with
    | .error e => .error e
    | .ok k =>
      match catalogKeys items with
      | .error e => .error e
      | .ok ks => .ok (k :: ks)

/-- Lines 56-58: append `item` to its catalog's bucket, creating the bucket
at the end on first sight (Python dict insertion order). -/
def insertGroup : List (Json × List Json) → Json → Json → List (Json × List Json)
  | [], k, item => [(k, [item])]
  | (k2, its) :: rest, k, item =>
    if jsonEqb k2 k then (k2, its ++ [item]) :: rest
    else (k2, its) :: insertGroup rest k item

/-- Lines 53-58: the grouping loop, `acc` being the `machine_catalogs` dict
built so far. -/
def groupItemsGo (acc : List (Json × List Json)) : List Json → Except PyErr (List (Json × List Json))
  | [] => .ok acc
  | item :: items =>
    match catalogKey item with
    | .ok k => groupItemsGo (insertGroup acc k item) items
    | .error e => .error e

/-- The `machine_catalogs` dict produced by lines 53-58 from a record list. -/
def groupItems (items : List Json) : Except PyErr (List (Json × List Json)) :=
  groupItemsGo [] items

/-- Lines 80-85 and 88: `item.get(key, '')` interpolated into the row. -/
def strCell (fs : List (String × Json)) (k : String) : String :=
  pyStr ((pyGet fs k).getD (.str ""))

/-- Line 86: `'Yes' if item.get('SessionCount', 0) > 1 else 'No'`.  Python
`>` against `1` accepts integers and bools (`True`/`False` compare as 1/0,
both not greater than 1) and raises `TypeError` on anything else. -/
def multisessionCell (fs : List (String × Json)) : Except PyErr String :=
  match (pyGet fs "SessionCount").getD (.num 0) with
  | .num n => .ok (if 1 < n then "Yes" else "No")
  | .bool _ => .ok "No"
  | _ => .error .typeError

/-- Line 87: `item.get('LastConnectionUser', {}).get('DisplayName', '')`.
`AttributeError` when a present `LastConnectionUser` value is not a dict. -/
def lastConnectionUserCell (fs : List (String × Json)) : Except PyErr String :=
  match (pyGet fs "LastConnectionUser").getD (.obj []) with
  | .obj ufs => .ok (pyStr ((pyGet ufs "DisplayName").getD (.str "")))
  | _ => .error .attributeError

/-- Line 89: `'Yes' if item.get('InMaintenanceMode', False) else 'No'`
(Python truthiness of the stored value). -/
def maintenanceCell (fs : List (String × Json)) : String :=
  if pyTruthy ((pyGet fs "InMaintenanceMode").getD (.bool false)) then "Yes" else "No"

/-- The fixed column-header block appended once per catalog table (lines
63-77), byte-for-byte the Python triple-quoted literal. -/
def tableHeader : String :=
  "\n            <table border=\"1\">\n                <tr>\n                    <th>MachineName</th>\n                    <th>OSType</th>\n                    <th>AllocationType</th>\n                    <th>RegistrationState</th>\n                    <th>SummaryState</th>\n                    <th>SessionCount</th>\n                    <th>Multisession</th>\n                    <th>LastConnectionUser</th>\n                    <th>LastConnectionTime</th>\n                    <th>MaintenanceMode</th>\n                </tr>\n            "

/-- Lines 79-104: one `<tr>` for one machine record, the ten cells in the
source's column order; `AttributeError` when the record itself is not a dict
(`.get` on a non-dict). -/
def renderRow (item : Json) : Except PyErr String :=
  match item with
  | .obj fs => do
    let multisession ← multisessionCell fs
    let last_connection_user ← lastConnectionUserCell fs
    .ok ("\n                <tr>\n                    <td>" ++ strCell fs "Name"
      ++ "</td>\n                    <td>" ++ strCell fs "OSType"
      ++ "</td>\n                    <td>" ++ strCell fs "AllocationType"
      ++ "</td>\n                    <td>" ++ strCell fs "RegistrationState"
      ++ "</td>\n                    <td>" ++ strCell fs "SummaryState"
      ++ "</td>\n                    <td>" ++ strCell fs "SessionCount"
      ++ "</td>\n                    <td>" ++ multisession
      ++ "</td>\n                    <td>" ++ last_connection_user
      ++ "</td>\n                    <td>" ++ strCell fs "FormattedLastConnectionTime"
      ++ "</td>\n                    <td>" ++ maintenanceCell fs
      ++ "</td>\n                </tr>\n                ")
  | _ => .error .attributeError

/-- The rows of one catalog table, in item order. -/
def renderRows : List Json → Except PyErr (List String)
  | [] => .ok []
  | item :: items =>
    match renderRow item with
    | .error e => .error e
    | .ok r =>
      match renderRows items with
      | .error e => .error e
      | .ok rs => .ok (r :: rs)

/-- Lines 60-106: one catalog sub-table — `<h3>` heading (line 61), the
column-header block, the rows, and `</table><br>` (line 106). -/
def renderGroup (mc : Json) (items : List Json) : Except PyErr String := do
  let rows ← renderRows items
  .ok ("<h3>MachineCatalog: " ++ pyStr mc ++ "</h3>" ++ tableHeader
    ++ String.join rows ++ "</table><br>")

/-- The concatenated sub-tables of a `machine_catalogs` dict, in its key
insertion order (the line-60 loop). -/
def renderGroups : List (Json × List Json) → Except PyErr (List String)
  | [] => .ok []
  | (mc, items) :: rest =>
    match renderGroup mc items with
    | .error e => .error e
    | .ok t =>
      match renderGroups rest with
      | .error e => .error e
      | .ok ts => .ok (t :: ts)

/-- `customers` lookup by customer id (line 50 subscript). -/
def lookupCustomer : Customers → String → Option CustomerDetails
  | [], _ => none
  | (cid, d) :: rest, k => if cid = k then some d else lookupCustomer rest k

/-- Line 50: `customers[customer_id]['customer_name']` — `KeyError` when the
id is not configured; a `customer_name` stored as `None` (absent environment
variable) is interpolated by the f-string as the text `None`. -/
def clientName (customers : Customers) (customer_id : String) : Except PyErr String :=
  match lookupCustomer customers customer_id with
  | some d =>
    match d.customer_name with
    | some s => .ok s
    | none => .ok "None"
  | none => .error .keyError

/-- Lines 49-106 for a single tenant: the `<h2>` heading (line 51) followed
by the grouped catalog tables built from `vda_data['Items']` (line 54
subscript, then iteration). -/
def tenantSection (customers : Customers) (customer_id : String) (vda_data : Json) :
    Except PyErr String := do
  let name ← clientName customers customer_id
  let itemsVal ← pySubscript vda_data "Items"
  let items ← pyIter itemsVal
  let groups ← groupItems items
  let tables ← renderGroups groups
  .ok ("<h2>Client Name: " ++ name ++ "</h2>" ++ String.join tables)

/-- The per-tenant sections of the report, in `data` order. -/
def tenantSections (customers : Customers) : List (String × Json) → Except PyErr (List String)
  | [] => .ok []
  | (cid, body) :: rest =>
    match tenantSection customers cid body with
    | .error e => .error e
    | .ok s =>
      match tenantSections customers rest with
      | .error e => .error e
      | .ok ss => .ok (s :: ss)

/-- `create_report` (src/main.py lines 47-108).  The Python function reads
the module-level `customers` mapping; here it is an explicit argument.
`data` maps customer id to that tenant's raw fetched body, in insertion
order; the `report += ...` loop is the concatenation of the per-tenant
sections. -/
def create_report (customers : Customers) (data : List (String × Json)) :
    Except PyErr String :=
  match tenantSections customers data with
  | .error e => .error e
  | .ok sections => .ok (String.join sections)

/-- The per-tenant loop of the governing task (lines 215-221): each tenant's
token-plus-fetch attempt either yields a parsed body or raises; a failure is
logged and skipped, a success is stored under the tenant's id, in configured
order. -/
def collectData (customers : Customers)
    (attempt : String → CustomerDetails → Except PyErr Json) : List (String × Json) :=
  customers.filterMap (fun p =>
    match attempt p.1 p.2 with
    | .ok body => some (p.1, body)
    | .error _ => none)

/-- Whether a tenant's token-plus-fetch attempt succeeded. -/
def attemptOk (attempt : String → CustomerDetails → Except PyErr Json)
    (p : String × CustomerDetails) : Bool :=
  match attempt p.1 p.2 with
  | .ok _ => true
  | .error _ => false

/-- Line 186: `[r.strip() for r in recipients if r.strip()]` — strip each
entry, drop the ones that strip to empty. -/
def cleanRecipients (rs : List String) : List String :=
  (rs.filter (fun r => pyStrip r != "")).map pyStrip

/-- Observable effects of one orchestrator run: the content written to
`vda_status_report.html` (when the write is reached), the recipient list
handed to `send_email` (when that call is reached), whether the no-data
abort fired, and the outcome (`.ok` with the returned value, or the raised
exception). -/
structure RunEffects where
  fileWritten : Option String
  emailRecipients : Option (List String)
  noDataLogged : Bool
  outcome : Except PyErr (Option String)
  deriving Repr

/-- The governing `vda_status_task` (src/main.py lines 212-234; the second
definition of that name, the one Python binds): collect per-tenant results,
build the report unconditionally, write it to the report file, then read
`EMAIL_RECIPIENTS` — with no default, so `None.split(',')` raises
`AttributeError` when the variable is unset — and split it on commas with no
trimming (line 230).  Email transport is the external Notifier; the
recipient list passed to `send_email` is recorded. -/
def vda_status_task (customers : Customers)
    (attempt : String → CustomerDetails → Except PyErr Json)
    (emailRecipientsEnv : Option String) : RunEffects :=
  let data := collectData customers attempt
  match create_report customers data with
  | .error e => ⟨none, none, false, .error e⟩
  | .ok report =>
    match emailRecipientsEnv with
    | none => ⟨some report, none, false, .error .attributeError⟩
    | some s => ⟨some report, some (pySplit ',' s), false, .ok (some report)⟩

/-- The first, shadowed `vda_status_task` definition (src/main.py lines
158-194): when no tenant succeeded it logs "No VDA status data collected for
any customer" and returns before writing or emailing anything (lines
171-173); otherwise it builds and writes the report and cleans the recipient
list (lines 185-186), defaulting to the hard-coded recipient when
`EMAIL_RECIPIENTS` is unset. -/
def vda_status_task_shadowed (customers : Customers)
    (attempt : String → CustomerDetails → Except PyErr Json)
    (emailRecipientsEnv : Option String) : RunEffects :=
  let data := collectData customers attempt
  if data.isEmpty then ⟨none, none, true, .ok none⟩
  else
    match create_report customers data with
    | .error e => ⟨none, none, false, .error e⟩
    | .ok report =>
      let recipients :=
        cleanRecipients (pySplit ',' (emailRecipientsEnv.getD "sstickley@axesssystems.co.uk"))
      ⟨some report, some recipients, false, .ok none⟩

/-- First occurrence of each key, in order of first appearance. -/
def firstSeen (ks : List Json) : List Json :=
  ks.foldl (fun acc k => if acc.any (jsonEqb · k) then acc else acc ++ [k]) []

/-- Whether an embedded computation raised. -/
def isErr {α : Type} : Except PyErr α → Bool
  | .ok _ => false
  | .error _ => true

/-! Concrete fixtures used by witnesses and counterexamples. -/

/-- A fully configured tenant record. -/
def sampleDetails : CustomerDetails :=
  ⟨some "id1", some "sec1", some "Tenant One", some "site1"⟩

/-- A second fully configured tenant record. -/
def sampleDetailsTwo : CustomerDetails :=
  ⟨some "id2", some "sec2", some "Tenant Two", some "site2"⟩

/-- A third fully configured tenant record. -/
def sampleDetailsThree : CustomerDetails :=
  ⟨some "id3", some "sec3", some "Tenant Three", some "site3"⟩

/-- A machine record in catalog `B`. -/
def sampleB1 : Json := .obj [("MachineCatalog", .obj [("Name", .str "B")]), ("Name", .str "m1")]

/-- A machine record in catalog `A`. -/
def sampleA : Json := .obj [("MachineCatalog", .obj [("Name", .str "A")]), ("Name", .str "m2")]

/-- A second machine record in catalog `B`. -/
def sampleB2 : Json := .obj [("MachineCatalog", .obj [("Name", .str "B")]), ("Name", .str "m3")]

/-- A machine record in catalog `C`. -/
def sampleC : Json := .obj [("MachineCatalog", .obj [("Name", .str "C")]), ("Name", .str "m4")]

/-- A fetched body with an empty `Items` list. -/
def emptyItemsBody : Json := .obj [("Items", .arr [])]

/-- An attempt in which every tenant's token exchange raises. -/
def allFailAttempt : String → CustomerDetails → Except PyErr Json :=
  fun _ _ => .error .httpError

/-- An attempt in which every tenant succeeds with an empty machine list. -/
def allOkAttempt : String → CustomerDetails → Except PyErr Json :=
  fun _ _ => .ok emptyItemsBody

/-- An attempt in which exactly tenant `t2` fails its token exchange. -/
def midFailAttempt : String → CustomerDetails → Except PyErr Json :=
  fun cid _ => if cid = "t2" then .error .httpError else .ok emptyItemsBody

/-! Helper lemmas. -/

/-- Inserting under key `k` leaves the key sequence unchanged when `k` is
already a key and appends `k` otherwise. -/
theorem insertGroup_keys (g : List (Json × List Json)) (k item : Json) :
    (insertGroup g k item).map Prod.fst =
      if (g.map Prod.fst).any (jsonEqb · k) then g.map Prod.fst
      else g.map Prod.fst ++ [k] := by
  induction g with
  | nil => simp [insertGroup]
  | cons hd tl ih =>
    obtain ⟨k2, its⟩ := hd
    by_cases h : jsonEqb k2 k = true
    · simp [insertGroup, h]
    · simp only [Bool.not_eq_true] at h
      rw [show insertGroup ((k2, its) :: tl) k item = (k2, its) :: insertGroup tl k item from by
        simp [insertGroup, h]]
      simp only [List.map_cons, List.any_cons, h, Bool.false_or]
      rw [ih]
      by_cases htl : ((tl.map Prod.fst).any (jsonEqb · k)) = true
      · rw [if_pos htl, if_pos htl]
      · rw [if_neg htl, if_neg htl, List.cons_append]

/-- The grouping loop's key sequence is the first-seen fold of the catalog
keys, continuing from the keys of the accumulator. -/
theorem groupItemsGo_keys :
    ∀ (items : List Json) (acc gs : List (Json × List Json)) (ks : List Json),
      groupItemsGo acc items = .ok gs → catalogKeys items = .ok ks →
      gs.map Prod.fst =
        ks.foldl (fun a k => if a.any (jsonEqb · k) then a else a ++ [k]) (acc.map Prod.fst) := by
  intro items
  induction items with
  | nil =>
    intro acc gs ks hg hk
    simp only [groupItemsGo] at hg
    simp only [catalogKeys] at hk
    cases hg
    cases hk
    rfl
  | cons item items ih =>
    intro acc gs ks hg hk
    simp only [groupItemsGo] at hg
    simp only [catalogKeys] at hk
    cases hck : catalogKey item with
    | error e => rw [hck] at hg; cases hg
    | ok k =>
      rw [hck] at hg hk
      cases hcks : catalogKeys items with
      | error e => rw [hcks] at hk; cases hk
      | ok ks2 =>
        rw [hcks] at hk
        cases hk
        have hrec := ih (insertGroup acc k item) gs ks2 hg hcks
        rw [hrec, insertGroup_keys, List.foldl_cons]

/-- The ids collected by the per-tenant loop are exactly the ids of the
tenants whose attempt succeeded, in configured order. -/
theorem collectData_keys (customers : Customers)
    (attempt : String → CustomerDetails → Except PyErr Json) :
    (collectData customers attempt).map Prod.fst =
      (customers.filter (attemptOk attempt)).map Prod.fst := by
  induction customers with
  | nil => rfl
  | cons p rest ih =>
    cases h : attempt p.1 p.2 with
    | ok body => simp [collectData, List.filterMap_cons, attemptOk, h] at ih ⊢; exact ih
    | error e => simp [collectData, List.filterMap_cons, attemptOk, h] at ih ⊢; exact ih

/-! The claims. -/

/-- C1 (code-bug evidence): when every tenant's token exchange fails, the
governing `vda_status_task` (the second definition of that name, the one
Python binds) collects nothing, yet still builds an empty report, writes it
to the report file and proceeds to the email step — while the shadowed first
definition aborts with the logged no-data error and performs neither the
persist nor the delivery step, as the claim describes. -/
theorem all_tenants_fail_governing_task_still_persists :
    collectData [("t1", sampleDetails)] allFailAttempt = [] ∧
    vda_status_task [("t1", sampleDetails)] allFailAttempt (some "a@x.com") =
      ⟨some "", some ["a@x.com"], false, .ok (some "")⟩ ∧
    vda_status_task_shadowed [("t1", sampleDetails)] allFailAttempt (some "a@x.com") =
      ⟨none, none, true, .ok none⟩ :=
  ⟨rfl, rfl, rfl⟩

/-- C2: the report groups a tenant's records into one bucket per distinct
line-55 catalog key, in first-seen order of that key (the grouping dict's
insertion order, never sorted); records with catalog values in order
B, A, B, C group as B, A, C; and a record with no `MachineCatalog` key, or a
`MachineCatalog` object with no `Name`, gets the key `"Unknown"`. -/
theorem report_groups_catalogs_first_seen :
    (∀ (items : List Json) (gs : List (Json × List Json)) (ks : List Json),
      groupItems items = .ok gs → catalogKeys items = .ok ks →
      gs.map Prod.fst = firstSeen ks) ∧
    groupItems [sampleB1, sampleA, sampleB2, sampleC] =
      .ok [(.str "B", [sampleB1, sampleB2]), (.str "A", [sampleA]), (.str "C", [sampleC])] ∧
    (∀ fs : List (String × Json), pyGet fs "MachineCatalog" = none →
      catalogKey (.obj fs) = .ok (.str "Unknown")) ∧
    (∀ (fs mcfs : List (String × Json)),
      pyGet fs "MachineCatalog" = some (.obj mcfs) → pyGet mcfs "Name" = none →
      catalogKey (.obj fs) = .ok (.str "Unknown")) := by
  refine ⟨?_, rfl, ?_, ?_⟩
  · intro items gs ks hg hk
    simpa [firstSeen] using groupItemsGo_keys items [] gs ks hg hk
  · intro fs h
    simp [catalogKey, h, pyGet]
  · intro fs mcfs h hn
    simp [catalogKey, h, hn]

/-- C2 witness: the general first-seen property instantiated on the concrete
B, A, B, C records, and the `"Unknown"` default on a record without a
`MachineCatalog` key. -/
theorem report_groups_catalogs_first_seen_witness :
    ([((Json.str "B"), [sampleB1, sampleB2]), ((Json.str "A"), [sampleA]),
        ((Json.str "C"), [sampleC])].map Prod.fst =
      firstSeen [Json.str "B", Json.str "A", Json.str "B", Json.str "C"]) ∧
    catalogKey (.obj [("Name", Json.str "m")]) = .ok (.str "Unknown") :=
  ⟨report_groups_catalogs_first_seen.1 [sampleB1, sampleA, sampleB2, sampleC] _ _ rfl rfl,
   report_groups_catalogs_first_seen.2.2.1 [("Name", Json.str "m")] rfl⟩

/-- C3 (code-bug evidence): the recipient list the governing task hands to
`send_email` comes from a bare `split(',')` with no trimming and no dropping
of empties (line 230), so `"a@x.com, b@y.com,"` yields three entries — not
the two the claim states — while the shadowed first definition's clean-up
(lines 185-186) yields exactly the two claimed recipients. -/
theorem governing_task_recipients_not_cleaned :
    pySplit ',' "a@x.com, b@y.com," = ["a@x.com", " b@y.com", ""] ∧
    (vda_status_task [("t1", sampleDetails)] allOkAttempt
        (some "a@x.com, b@y.com,")).emailRecipients =
      some ["a@x.com", " b@y.com", ""] ∧
    (["a@x.com", " b@y.com", ""] ≠ ["a@x.com", "b@y.com"]) ∧
    cleanRecipients (pySplit ',' "a@x.com, b@y.com,") = ["a@x.com", "b@y.com"] ∧
    (vda_status_task_shadowed [("t1", sampleDetails)] allOkAttempt
        (some "a@x.com, b@y.com,")).emailRecipients =
      some ["a@x.com", "b@y.com"] :=
  ⟨rfl, rfl, by decide, rfl, rfl⟩

/-- C4 counterexample: on a successful response `get_vda_status` returns the
whole parsed body — not its `Items` collection — and on a body with no
`Items` key it returns that body, not an empty collection. -/
theorem get_vda_status_not_items_counterexample :
    get_vda_status ⟨200, Json.obj [("Items", Json.arr [Json.null])]⟩ =
      .ok (Json.obj [("Items", Json.arr [Json.null])]) ∧
    Json.obj [("Items", Json.arr [Json.null])] ≠ Json.arr [Json.null] ∧
    get_vda_status ⟨200, Json.obj []⟩ = .ok (Json.obj []) ∧
    Json.obj [] ≠ Json.arr [] :=
  ⟨rfl, fun h => Json.noConfusion h, rfl, fun h => Json.noConfusion h⟩

/-- C4 (amended): for every successful HTTP response `get_vda_status`
returns the entire parsed JSON body unchanged; downstream, `create_report`
consumes `body['Items']` by subscripting, which yields the `Items` value
when the key is present and raises `KeyError` — rather than substituting an
empty collection — when it is absent. -/
theorem get_vda_status_whole_body_items_subscript :
    (∀ resp : HttpResponse, resp.status < 400 → get_vda_status resp = .ok resp.body) ∧
    (∀ (fs : List (String × Json)) (v : Json), pyGet fs "Items" = some v →
      pySubscript (.obj fs) "Items" = .ok v) ∧
    (∀ fs : List (String × Json), pyGet fs "Items" = none →
      pySubscript (.obj fs) "Items" = .error .keyError) := by
  refine ⟨?_, ?_, ?_⟩
  · intro resp h
    simp [get_vda_status, raiseForStatus, Nat.not_le.mpr h]
  · intro fs v h
    simp [pySubscript, h]
  · intro fs h
    simp [pySubscript, h]

/-- C4 amended witness: a concrete successful response, and concrete bodies
with and without an `Items` key. -/
theorem get_vda_status_whole_body_items_subscript_witness :
    get_vda_status ⟨200, Json.null⟩ = .ok Json.null ∧
    pySubscript (.obj [("Items", Json.arr [])]) "Items" = .ok (Json.arr []) ∧
    pySubscript (.obj []) "Items" = .error .keyError :=
  ⟨get_vda_status_whole_body_items_subscript.1 ⟨200, Json.null⟩ (by decide),
   get_vda_status_whole_body_items_subscript.2.1 [("Items", Json.arr [])] (Json.arr []) rfl,
   get_vda_status_whole_body_items_subscript.2.2 [] rfl⟩

/-- C5 counterexample: a successful (HTTP 200) token response whose JSON
body has no `access_token` field makes `get_bearer_token` return Python
`None` without raising — it does not signal an authentication error, contrary
to the claim's second error case. -/
theorem get_bearer_token_missing_token_counterexample :
    get_bearer_token ⟨200, Json.obj []⟩ = .ok none ∧
    isErr (get_bearer_token ⟨200, Json.obj []⟩) = false :=
  ⟨rfl, rfl⟩

/-- C5 (amended): for object-bodied responses the token provider raises
exactly when the HTTP status is non-success; on a successful status it
returns the `access_token` field's value verbatim when present, and `None` —
not an error — when the field is absent. -/
theorem get_bearer_token_error_iff_bad_status :
    ∀ (status : Nat) (fs : List (String × Json)),
      (isErr (get_bearer_token ⟨status, .obj fs⟩) = true ↔ 400 ≤ status) ∧
      (status < 400 → get_bearer_token ⟨status, .obj fs⟩ = .ok (pyGet fs "access_token")) := by
  intro status fs
  by_cases h : 400 ≤ status
  · constructor
    · simp [get_bearer_token, raiseForStatus, h, isErr]
    · intro hlt
      exact absurd h (Nat.not_le.mpr hlt)
  · constructor
    · simp [get_bearer_token, raiseForStatus, h, isErr]
    · intro _
      simp [get_bearer_token, raiseForStatus, h]

/-- C5 amended witness: a 401 response raises, a 200 response with a token
returns it, a 200 response without one returns `None`. -/
theorem get_bearer_token_error_iff_bad_status_witness :
    (isErr (get_bearer_token ⟨401, .obj []⟩) = true ↔ 400 ≤ 401) ∧
    get_bearer_token ⟨200, .obj [("access_token", Json.str "tok")]⟩ =
      .ok (pyGet [("access_token", Json.str "tok")] "access_token") ∧
    get_bearer_token ⟨200, .obj []⟩ = .ok (pyGet [] "access_token") :=
  ⟨(get_bearer_token_error_iff_bad_status 401 []).1,
   (get_bearer_token_error_iff_bad_status 200 [("access_token", Json.str "tok")]).2 (by decide),
   (get_bearer_token_error_iff_bad_status 200 []).2 (by decide)⟩

/-- C6: no single tenant's failure aborts the per-tenant loop — the
collected ids are exactly the succeeded tenants' ids in configured order,
and whenever the succeeded tenants' sections render, the governing run
builds the report over exactly those sections, writes it, and completes
with a success outcome. -/
theorem partial_failure_skips_only_failed_tenants :
    ∀ (customers : Customers) (attempt : String → CustomerDetails → Except PyErr Json)
      (secs : List String) (env : String),
      tenantSections customers (collectData customers attempt) = .ok secs →
      (collectData customers attempt).map Prod.fst =
        (customers.filter (attemptOk attempt)).map Prod.fst ∧
      vda_status_task customers attempt (some env) =
        ⟨some (String.join secs), some (pySplit ',' env), false,
          .ok (some (String.join secs))⟩ := by
  intro customers attempt secs env h
  refine ⟨collectData_keys customers attempt, ?_⟩
  simp [vda_status_task, create_report, h]

/-- C6 witness: three configured tenants with tenant `t2` failing its token
exchange — the collected ids are `t1` and `t3` in order and the run
completes with a report containing exactly their sections. -/
theorem partial_failure_skips_only_failed_tenants_witness :
    (collectData [("t1", sampleDetails), ("t2", sampleDetailsTwo), ("t3", sampleDetailsThree)]
        midFailAttempt).map Prod.fst =
      ([("t1", sampleDetails), ("t2", sampleDetailsTwo), ("t3", sampleDetailsThree)].filter
        (attemptOk midFailAttempt)).map Prod.fst ∧
    vda_status_task [("t1", sampleDetails), ("t2", sampleDetailsTwo), ("t3", sampleDetailsThree)]
        midFailAttempt (some "a@x.com") =
      ⟨some (String.join
          ["<h2>Client Name: Tenant One</h2>", "<h2>Client Name: Tenant Three</h2>"]),
        some ["a@x.com"], false,
        .ok (some (String.join
          ["<h2>Client Name: Tenant One</h2>", "<h2>Client Name: Tenant Three</h2>"]))⟩ :=
  partial_failure_skips_only_failed_tenants _ _ _ "a@x.com" rfl

/-- C7: the Multisession cell is `Yes` exactly when the record's integer
session count is strictly greater than 1 (so 1 and 0 render `No`); an
absent session count renders `No`, and the SessionCount cell then renders
as the empty string. -/
theorem multisession_yes_iff_count_gt_one :
    ∀ (fs : List (String × Json)) (n : Int),
      (pyGet fs "SessionCount" = some (.num n) →
        multisessionCell fs = .ok (if 1 < n then "Yes" else "No") ∧
        (multisessionCell fs = .ok "Yes" ↔ 1 < n)) ∧
      (pyGet fs "SessionCount" = none →
        multisessionCell fs = .ok "No" ∧ strCell fs "SessionCount" = "") := by
  intro fs n
  constructor
  · intro h
    have hv : multisessionCell fs = .ok (if 1 < n then "Yes" else "No") := by
      simp [multisessionCell, h]
    refine ⟨hv, ?_⟩
    rw [hv]
    constructor
    · intro he
      by_contra hn
      rw [if_neg hn] at he
      exact absurd (Except.ok.inj he) (by decide)
    · intro hn
      rw [if_pos hn]
  · intro h
    constructor
    · have h0 : multisessionCell fs = .ok (if (1 : Int) < 0 then "Yes" else "No") := by
        simp [multisessionCell, h]
      rw [h0, if_neg (by norm_num)]
    · simp [strCell, h, pyStr]

/-- C7 witness: session counts 2, 1, 0 and absent, on concrete records. -/
theorem multisession_yes_iff_count_gt_one_witness :
    (multisessionCell [("SessionCount", Json.num 2)] = .ok "Yes" ↔ 1 < (2 : Int)) ∧
    multisessionCell [("SessionCount", Json.num 1)] =
      .ok (if 1 < (1 : Int) then "Yes" else "No") ∧
    multisessionCell [("SessionCount", Json.num 0)] =
      .ok (if 1 < (0 : Int) then "Yes" else "No") ∧
    multisessionCell [("Name", Json.str "m")] = .ok "No" ∧
    strCell [("Name", Json.str "m")] "SessionCount" = "" :=
  ⟨((multisession_yes_iff_count_gt_one [("SessionCount", Json.num 2)] 2).1 rfl).2,
   ((multisession_yes_iff_count_gt_one [("SessionCount", Json.num 1)] 1).1 rfl).1,
   ((multisession_yes_iff_count_gt_one [("SessionCount", Json.num 0)] 0).1 rfl).1,
   ((multisession_yes_iff_count_gt_one [("Name", Json.str "m")] 0).2 rfl).1,
   ((multisession_yes_iff_count_gt_one [("Name", Json.str "m")] 0).2 rfl).2⟩

/-- C8: a record from which an optional field is entirely absent renders
that cell as the empty string — never the text `None` or `null` — both for
the generic `.get(key, '')` cells (`LastConnectionTime` among them) and for
the nested `LastConnectionUser` display-name cell. -/
theorem missing_optional_fields_render_empty :
    ∀ fs : List (String × Json),
      (pyGet fs "LastConnectionUser" = none →
        lastConnectionUserCell fs = .ok "" ∧ lastConnectionUserCell fs ≠ .ok "None" ∧
        lastConnectionUserCell fs ≠ .ok "null") ∧
      (∀ k : String, pyGet fs k = none →
        strCell fs k = "" ∧ strCell fs k ≠ "None" ∧ strCell fs k ≠ "null") := by
  intro fs
  constructor
  · intro h
    have hv : lastConnectionUserCell fs = .ok "" := by
      simp [lastConnectionUserCell, h, pyGet, pyStr]
    refine ⟨hv, ?_, ?_⟩
    · rw [hv]
      intro he
      exact absurd (Except.ok.inj he) (by decide)
    · rw [hv]
      intro he
      exact absurd (Except.ok.inj he) (by decide)
  · intro k h
    have hv : strCell fs k = "" := by
      simp [strCell, h, pyStr]
    refine ⟨hv, ?_, ?_⟩
    · rw [hv]
      intro he
      exact absurd he (by decide)
    · rw [hv]
      intro he
      exact absurd he (by decide)

/-- C8 witness: a record lacking `LastConnectionUser` and
`FormattedLastConnectionTime` renders both cells empty. -/
theorem missing_optional_fields_render_empty_witness :
    lastConnectionUserCell [("Name", Json.str "m")] = .ok "" ∧
    strCell [("Name", Json.str "m")] "FormattedLastConnectionTime" = "" :=
  ⟨((missing_optional_fields_render_empty [("Name", Json.str "m")]).1 rfl).1,
   ((missing_optional_fields_render_empty [("Name", Json.str "m")]).2
      "FormattedLastConnectionTime" rfl).1⟩

/-- C9: `create_report` is a pure, deterministic function of the results
mapping (keys in iteration order with their record lists) and the tenant
display-name mapping — equal inputs give byte-identical HTML. -/
theorem create_report_deterministic :
    ∀ (cs1 cs2 : Customers) (dat1 dat2 : List (String × Json)),
      cs1 = cs2 → dat1 = dat2 → create_report cs1 dat1 = create_report cs2 dat2 := by
  intro cs1 cs2 dat1 dat2 hc hd
  rw [hc, hd]

/-- C9 witness: two invocations on a concrete mapping agree. -/
theorem create_report_deterministic_witness :
    create_report [("t1", sampleDetails)] [("t1", emptyItemsBody)] =
      create_report [("t1", sampleDetails)] [("t1", emptyItemsBody)] :=
  create_report_deterministic _ _ _ _ rfl rfl

/-- C10: the empty-cell default applies only to entirely absent keys — a key
present but bound to `null` (or any non-dict value) makes the chained
`.get` raise `AttributeError` instead of rendering an empty cell or the
`Unknown` group, and `create_report` propagates the error. -/
theorem present_null_field_raises_not_empty :
    lastConnectionUserCell [("LastConnectionUser", Json.null)] = .error .attributeError ∧
    renderRow (.obj [("LastConnectionUser", Json.null)]) = .error .attributeError ∧
    catalogKey (.obj [("MachineCatalog", Json.null)]) = .error .attributeError ∧
    catalogKey (.obj [("MachineCatalog", Json.str "x")]) = .error .attributeError ∧
    create_report [("t1", sampleDetails)]
        [("t1", Json.obj [("Items", Json.arr [Json.obj [("MachineCatalog", Json.null)]])])] =
      .error .attributeError ∧
    create_report [("t1", sampleDetails)]
        [("t1", Json.obj [("Items", Json.arr [Json.obj [("LastConnectionUser", Json.null)]])])] =
      .error .attributeError :=
  ⟨rfl, rfl, rfl, rfl, rfl, rfl⟩

end VdaStatus
